import Mathlib

/-!
Shallow embedding of the Todo domain core (entities, value objects, errors,
use cases) of a clean-architecture NestJS Todo API, together with theorems
settling the specification's claims about it.

Conventions of the embedding:
* TypeScript exceptions become `Except TodoError` results, or — for the
  mutating entity methods, where mutations performed before a throw survive
  on the object — a pair `Todo × Option TodoError` of the post-call entity
  state and the thrown error (if any).
* `new Date()` timestamps become an explicit `now : Nat` argument.
* `undefined` optional fields become `Option _`; for the description field,
  which distinguishes `undefined` from `null`, `Option (Option String)` is
  used (`none` = absent/undefined, `some none` = explicit null).
* Repository calls issued by a use case are recorded in a trace of `RepoOp`
  values; the repository's read side is modelled as a pure lookup function.
-/

deriving instance DecidableEq for Except

/-- The three status literals of the `TODO_STATUS` constant object. -/
inductive TodoStatusType
  | PENDING
  | IN_PROGRESS
  | COMPLETED
deriving DecidableEq, Repr

/-- `Object.values(TODO_STATUS)` in declaration order. -/
def TODO_STATUS_values : List String := ["PENDING", "IN_PROGRESS", "COMPLETED"]

/-- The `ALLOWED_TRANSITIONS` record mapping each status to its allowed targets. -/
def ALLOWED_TRANSITIONS : TodoStatusType → List TodoStatusType
  | .PENDING => [.IN_PROGRESS, .COMPLETED]
  | .IN_PROGRESS => [.COMPLETED, .PENDING]
  | .COMPLETED => [.PENDING]

/-- The domain error taxonomy. The first three constructors embed the
`DomainError` subclasses (each carrying its data fields); `genericError`
embeds a plain JavaScript `Error`, which carries only a message and no
`code` property. -/
inductive TodoError
  | invalidTodoTitle (invalidTitle : String) (reason : String)
  | invalidStatusTransition (current target : TodoStatusType)
  | todoNotFound (id : Int)
  | genericError (message : String)
deriving DecidableEq, Repr

/-- The machine-readable `code` of an error: `DomainError` subclasses carry a
stable code string; a plain `Error` (modelled by `genericError`) has none. -/
def TodoError.code : TodoError → Option String
  | .invalidTodoTitle _ _ => some "INVALID_TODO_TITLE"
  | .invalidStatusTransition _ _ => some "INVALID_STATUS_TRANSITION"
  | .todoNotFound _ => some "TODO_NOT_FOUND"
  | .genericError _ => none

/-- `InvalidTodoTitleError.empty()`. -/
def InvalidTodoTitleError.empty : TodoError :=
  .invalidTodoTitle "" "제목은 비어있을 수 없습니다."

/-- `InvalidTodoTitleError.tooLong(title, maxLength)`. -/
def InvalidTodoTitleError.tooLong (title : String) (maxLength : Nat) : TodoError :=
  .invalidTodoTitle title
    ("제목은 " ++ toString maxLength ++ "자를 초과할 수 없습니다. (현재: "
      ++ toString title.length ++ "자)")

/-- `InvalidTodoTitleError.tooShort(title, minLength)`. -/
def InvalidTodoTitleError.tooShort (title : String) (minLength : Nat) : TodoError :=
  .invalidTodoTitle title
    ("제목은 최소 " ++ toString minLength ++ "자 이상이어야 합니다. (현재: "
      ++ toString title.length ++ "자)")

/-- `TodoStatus.default()`: the PENDING status. -/
def TodoStatus.defaultStatus : TodoStatusType := .PENDING

/-- `TodoStatus.canTransitionTo`: self-transitions are rejected, otherwise the
target must appear in the current status's `ALLOWED_TRANSITIONS` entry. -/
def TodoStatus.canTransitionTo (s target : TodoStatusType) : Bool :=
  if s = target then false
  else (ALLOWED_TRANSITIONS s).contains target

/-- `TodoStatus.transitionTo`: returns the target status, or throws
`InvalidStatusTransitionError` when `canTransitionTo` is false. -/
def TodoStatus.transitionTo (s target : TodoStatusType) : Except TodoError TodoStatusType :=
  if TodoStatus.canTransitionTo s target then .ok target
  else .error (.invalidStatusTransition s target)

/-- The message of the plain `Error` thrown by `TodoStatus.fromString` for an
unrecognised literal (`\x27` is the ASCII apostrophe). -/
def TodoStatus.fromStringErrorMessage (value : String) : String :=
  "유효하지 않은 Todo 상태입니다: \x27" ++ value ++ "\x27. 허용되는 값: "
    ++ String.intercalate ", " TODO_STATUS_values

/-- `TodoStatus.fromString`: looks `value` up among `Object.values(TODO_STATUS)`
and throws a plain `Error` (not a `DomainError`) when it is not found. -/
def TodoStatus.fromString (value : String) : Except TodoError TodoStatusType :=
  if value = "PENDING" then .ok .PENDING
  else if value = "IN_PROGRESS" then .ok .IN_PROGRESS
  else if value = "COMPLETED" then .ok .COMPLETED
  else .error (.genericError (TodoStatus.fromStringErrorMessage value))

/-- `TodoStatus.isCompleted()`. -/
def TodoStatus.isCompleted (s : TodoStatusType) : Bool := s = .COMPLETED

/-- `TodoStatus.isPending()`. -/
def TodoStatus.isPending (s : TodoStatusType) : Bool := s = .PENDING

/-- The embedding of JavaScript `String.prototype.trim()`: drops whitespace
characters from both ends. (Defined over the character list so that it
evaluates by `decide`, unlike `String.trim`.) -/
def trimString (s : String) : String :=
  String.mk (((s.data.dropWhile Char.isWhitespace).reverse.dropWhile
    Char.isWhitespace).reverse)

/-- `TodoTitle.MIN_LENGTH`. -/
def TodoTitle.MIN_LENGTH : Nat := 1

/-- `TodoTitle.MAX_LENGTH`. -/
def TodoTitle.MAX_LENGTH : Nat := 100

/-- `TodoTitle.create(value)`: the argument is `Option String` because the
TypeScript code checks `value === null || value === undefined` first
(`none` models null/undefined). On success the held value is the trimmed
string. -/
def TodoTitle.create (value : Option String) : Except TodoError String :=
  match value with
  | none => .error InvalidTodoTitleError.empty
  | some v =>
    let trimmed := trimString v
    if trimmed.length = 0 then .error InvalidTodoTitleError.empty
    else if trimmed.length < TodoTitle.MIN_LENGTH then
      .error (InvalidTodoTitleError.tooShort trimmed TodoTitle.MIN_LENGTH)
    else if trimmed.length > TodoTitle.MAX_LENGTH then
      .error (InvalidTodoTitleError.tooLong trimmed TodoTitle.MAX_LENGTH)
    else .ok trimmed

/-- The `Todo` entity's fields. `title` holds the validated `TodoTitle` value;
`description` is `none` when the stored description is `null`; timestamps are
abstract instants (`Nat`). -/
structure Todo where
  id : Option Int
  title : String
  description : Option String
  status : TodoStatusType
  createdAt : Nat
  updatedAt : Nat
deriving DecidableEq, Repr

/-- `Todo.create(title, description?)`: validates the title, applies
`description ?? null` (which keeps an empty string as-is), defaults the status
to PENDING and stamps both timestamps with the same `now`. -/
def Todo.create (title : String) (description : Option String) (now : Nat) :
    Except TodoError Todo :=
  match TodoTitle.create (some title) with
  | .error e => .error e
  | .ok titleVO =>
    .ok { id := none, title := titleVO, description := description,
          status := TodoStatus.defaultStatus, createdAt := now, updatedAt := now }

/-- `Todo.complete()`: no-op when already COMPLETED, otherwise transitions to
COMPLETED and stamps `updatedAt`. Returns post-state and thrown error. -/
def Todo.complete (t : Todo) (now : Nat) : Todo × Option TodoError :=
  if TodoStatus.isCompleted t.status then (t, none)
  else
    match TodoStatus.transitionTo t.status .COMPLETED with
    | .ok s => ({ t with status := s, updatedAt := now }, none)
    | .error e => (t, some e)

/-- `Todo.uncomplete()`: no-op when already PENDING, otherwise transitions to
PENDING and stamps `updatedAt`. -/
def Todo.uncomplete (t : Todo) (now : Nat) : Todo × Option TodoError :=
  if TodoStatus.isPending t.status then (t, none)
  else
    match TodoStatus.transitionTo t.status .PENDING with
    | .ok s => ({ t with status := s, updatedAt := now }, none)
    | .error e => (t, some e)

/-- `Todo.toggleComplete()`: `uncomplete()` when COMPLETED, else `complete()`. -/
def Todo.toggleComplete (t : Todo) (now : Nat) : Todo × Option TodoError :=
  if TodoStatus.isCompleted t.status then t.uncomplete now
  else t.complete now

/-- `Todo.changeStatus(newStatus)`: no-op when the status is unchanged,
otherwise delegates to `TodoStatus.transitionTo` and stamps `updatedAt`. -/
def Todo.changeStatus (t : Todo) (newStatus : TodoStatusType) (now : Nat) :
    Todo × Option TodoError :=
  if t.status = newStatus then (t, none)
  else
    match TodoStatus.transitionTo t.status newStatus with
    | .ok s => ({ t with status := s, updatedAt := now }, none)
    | .error e => (t, some e)

/-- `Todo.updateTitle(newTitle)`: validates via `TodoTitle.create` before
comparing; no-op when the validated value equals the current title, otherwise
replaces the title and stamps `updatedAt`. -/
def Todo.updateTitle (t : Todo) (newTitle : String) (now : Nat) :
    Todo × Option TodoError :=
  match TodoTitle.create (some newTitle) with
  | .error e => (t, some e)
  | .ok newTitleVO =>
    if t.title = newTitleVO then (t, none)
    else ({ t with title := newTitleVO, updatedAt := now }, none)

/-- `newDescription?.trim() || null`: null stays null; a string is trimmed and
an empty result collapses to null. -/
def sanitizeDescription (newDescription : Option String) : Option String :=
  match newDescription with
  | none => none
  | some s => let tr := trimString s; if tr = "" then none else some tr

/-- `Todo.updateDescription(newDescription)` (never throws): no-op when the
sanitized value equals the stored description, otherwise replaces it and
stamps `updatedAt`. -/
def Todo.updateDescription (t : Todo) (newDescription : Option String) (now : Nat) : Todo :=
  let sanitized := sanitizeDescription newDescription
  if t.description = sanitized then t
  else { t with description := sanitized, updatedAt := now }

/-- The parameter object of `Todo.update`: `none` in a field models an
absent/`undefined` field; `description = some none` models an explicit null. -/
structure UpdateParams where
  title : Option String
  description : Option (Option String)
  status : Option TodoStatusType
deriving DecidableEq, Repr

/-- The `if (params.title !== undefined) this.updateTitle(params.title)` block. -/
def Todo.updateTitleStep (t : Todo) (title : Option String) (now : Nat) :
    Todo × Option TodoError :=
  match title with
  | none => (t, none)
  | some ti => t.updateTitle ti now

/-- The `if (params.description !== undefined) this.updateDescription(...)` block. -/
def Todo.updateDescriptionStep (t : Todo) (description : Option (Option String))
    (now : Nat) : Todo :=
  match description with
  | none => t
  | some d => t.updateDescription d now

/-- The `if (params.status !== undefined) this.changeStatus(params.status)` block. -/
def Todo.changeStatusStep (t : Todo) (status : Option TodoStatusType) (now : Nat) :
    Todo × Option TodoError :=
  match status with
  | none => (t, none)
  | some s => t.changeStatus s now

/-- `Todo.update(params)`: the three guarded blocks run in source order
(title, then description, then status); a thrown error aborts the remaining
blocks while mutations already performed stay on the entity. -/
def Todo.update (t : Todo) (p : UpdateParams) (now : Nat) : Todo × Option TodoError :=
  match t.updateTitleStep p.title now with
  | (t1, some e) => (t1, some e)
  | (t1, none) =>
    let t2 := t1.updateDescriptionStep p.description now
    t2.changeStatusStep p.status now

/-- A repository operation issued by a use case. `save`, `update` and
`deleteById` are the write operations; `findById` is a read. -/
inductive RepoOp
  | findById (id : Int)
  | save (todo : Todo)
  | update (todo : Todo)
  | deleteById (id : Int)
deriving DecidableEq, Repr

/-- Whether a repository operation writes to the store. -/
def RepoOp.isWrite : RepoOp → Bool
  | .findById _ => false
  | .save _ => true
  | .update _ => true
  | .deleteById _ => true

/-- The `UpdateTodoCommand` shape (`id` required, the rest optional;
`description = some none` models an explicit null). -/
structure UpdateTodoCommand where
  id : Int
  title : Option String
  description : Option (Option String)
  status : Option TodoStatusType
deriving DecidableEq, Repr

/-- `GetTodoByIdUseCase.execute(id)`: `findById`, throw `TodoNotFoundError`
when absent, otherwise return the entity. The result pairs the trace of
repository operations with the outcome. -/
def GetTodoByIdUseCase.execute (findById : Int → Option Todo) (id : Int) :
    List RepoOp × Except TodoError Todo :=
  match findById id with
  | none => ([.findById id], .error (.todoNotFound id))
  | some todo => ([.findById id], .ok todo)

/-- `UpdateTodoUseCase.execute(command)`: load, apply `Todo.update` (its error
propagates before any write), then persist via the repository's `update`. -/
def UpdateTodoUseCase.execute (findById : Int → Option Todo)
    (command : UpdateTodoCommand) (now : Nat) :
    List RepoOp × Except TodoError Todo :=
  match findById command.id with
  | none => ([.findById command.id], .error (.todoNotFound command.id))
  | some existingTodo =>
    match existingTodo.update
        { title := command.title, description := command.description,
          status := command.status } now with
    | (_, some e) => ([.findById command.id], .error e)
    | (t1, none) => ([.findById command.id, .update t1], .ok t1)

/-- `DeleteTodoUseCase.execute(id)`: existence check via `findById` (throwing
`TodoNotFoundError` when absent), then `delete`. -/
def DeleteTodoUseCase.execute (findById : Int → Option Todo) (id : Int) :
    List RepoOp × Except TodoError Unit :=
  match findById id with
  | none => ([.findById id], .error (.todoNotFound id))
  | some _ => ([.findById id, .deleteById id], .ok ())

/-- `ToggleTodoUseCase.execute(id)`: load, `toggleComplete()`, persist via
`update`. -/
def ToggleTodoUseCase.execute (findById : Int → Option Todo) (id : Int)
    (now : Nat) : List RepoOp × Except TodoError Todo :=
  match findById id with
  | none => ([.findById id], .error (.todoNotFound id))
  | some todo =>
    match todo.toggleComplete now with
    | (_, some e) => ([.findById id], .error e)
    | (t1, none) => ([.findById id, .update t1], .ok t1)

/-! ## Helper lemmas shared by the claim theorems -/

/-- `TodoTitle.create` only ever throws `InvalidTodoTitleError`s. -/
theorem TodoTitle.create_error_shape (v : Option String) (e : TodoError)
    (h : TodoTitle.create v = .error e) :
    ∃ ti r, e = .invalidTodoTitle ti r := by
  cases v with
  | none =>
    simp [TodoTitle.create, InvalidTodoTitleError.empty] at h
    exact ⟨_, _, h.symm⟩
  | some s =>
    simp only [TodoTitle.create] at h
    split at h
    · simp [InvalidTodoTitleError.empty] at h
      exact ⟨_, _, h.symm⟩
    · split at h
      · simp [InvalidTodoTitleError.tooShort] at h
        exact ⟨_, _, h.symm⟩
      · split at h
        · simp [InvalidTodoTitleError.tooLong] at h
          exact ⟨_, _, h.symm⟩
        · simp at h

/-- A failing `updateTitle` leaves the entity untouched. -/
theorem Todo.updateTitle_err_frame (t : Todo) (ti : String) (now : Nat)
    (e : TodoError) (h : (t.updateTitle ti now).2 = some e) :
    (t.updateTitle ti now).1 = t := by
  simp only [Todo.updateTitle] at *
  rcases hc : TodoTitle.create (some ti) with v | v <;> simp [hc] at *
  split at h <;> simp_all

/-- A failing `changeStatus` leaves the entity untouched. -/
theorem Todo.changeStatus_err_frame (t : Todo) (s : TodoStatusType) (now : Nat)
    (e : TodoError) (h : (t.changeStatus s now).2 = some e) :
    (t.changeStatus s now).1 = t := by
  by_cases hs : t.status = s
  · simp [Todo.changeStatus, hs] at h
  · rcases hc : TodoStatus.transitionTo t.status s with v | v
    · simp [Todo.changeStatus, hs, hc]
    · simp [Todo.changeStatus, hs, hc] at h

/-- `updateTitle` never touches description, status or createdAt. -/
theorem Todo.updateTitle_frame (t : Todo) (ti : String) (now : Nat) :
    (t.updateTitle ti now).1.description = t.description ∧
    (t.updateTitle ti now).1.status = t.status ∧
    (t.updateTitle ti now).1.createdAt = t.createdAt := by
  simp only [Todo.updateTitle]
  rcases hc : TodoTitle.create (some ti) with v | v <;> simp
  split <;> simp

/-- `updateDescription` never touches title, status or createdAt. -/
theorem Todo.updateDescription_frame (t : Todo) (d : Option String) (now : Nat) :
    (t.updateDescription d now).title = t.title ∧
    (t.updateDescription d now).status = t.status ∧
    (t.updateDescription d now).createdAt = t.createdAt := by
  simp only [Todo.updateDescription]
  split <;> simp

/-- `changeStatus` never touches title, description or createdAt. -/
theorem Todo.changeStatus_frame (t : Todo) (s : TodoStatusType) (now : Nat) :
    (t.changeStatus s now).1.title = t.title ∧
    (t.changeStatus s now).1.description = t.description ∧
    (t.changeStatus s now).1.createdAt = t.createdAt := by
  simp only [Todo.changeStatus]
  split
  · simp
  · rcases hc : TodoStatus.transitionTo t.status s with v | v <;> simp

/-! ## Claim theorems -/

/-- The transition pairs named by the specification:
PENDING→{IN_PROGRESS, COMPLETED}; IN_PROGRESS→{COMPLETED, PENDING};
COMPLETED→{PENDING}. -/
def specAllowedTransitionPairs : List (TodoStatusType × TodoStatusType) :=
  [(.PENDING, .IN_PROGRESS), (.PENDING, .COMPLETED),
   (.IN_PROGRESS, .COMPLETED), (.IN_PROGRESS, .PENDING),
   (.COMPLETED, .PENDING)]

/-- C1: for every pair of statuses, `transitionTo` succeeds (returning the
target) exactly on the pairs of the specification's table and otherwise fails
with `InvalidStatusTransition(a, b)`; `canTransitionTo` is true exactly on
the allowed pairs, and every self-transition is rejected. -/
theorem C1_status_transition_table :
    ∀ a b : TodoStatusType,
      (TodoStatus.canTransitionTo a b =
        decide ((a, b) ∈ specAllowedTransitionPairs)) ∧
      (TodoStatus.transitionTo a b =
        if (a, b) ∈ specAllowedTransitionPairs then .ok b
        else .error (.invalidStatusTransition a b)) ∧
      TodoStatus.canTransitionTo a a = false := by
  intro a b
  cases a <;> cases b <;> decide

/-- C2: for every string `s`, `TodoTitle.create` succeeds with value
`trim(s)` when `1 ≤ length(trim(s)) ≤ 100`, fails with an InvalidTitle
(empty) error when `trim(s)` is empty — including the absent/null case —
and fails with an InvalidTitle (tooLong) error when `length(trim(s)) > 100`. -/
theorem C2_todo_title_create (s : String) :
    (1 ≤ (trimString s).length ∧ (trimString s).length ≤ 100 →
      TodoTitle.create (some s) = .ok (trimString s)) ∧
    ((trimString s).length = 0 →
      TodoTitle.create (some s) = .error InvalidTodoTitleError.empty) ∧
    ((trimString s).length > 100 →
      TodoTitle.create (some s) =
        .error (InvalidTodoTitleError.tooLong (trimString s) TodoTitle.MAX_LENGTH)) ∧
    TodoTitle.create none = .error InvalidTodoTitleError.empty := by
  refine ⟨?_, ?_, ?_, rfl⟩
  · intro h
    have h0 : ¬ (trimString s).length = 0 := by omega
    have h1 : ¬ (trimString s).length < TodoTitle.MIN_LENGTH := by
      simp only [TodoTitle.MIN_LENGTH]; omega
    have h2 : ¬ (trimString s).length > TodoTitle.MAX_LENGTH := by
      simp only [TodoTitle.MAX_LENGTH]; omega
    simp [TodoTitle.create, h0, h1, h2]
  · intro h
    simp [TodoTitle.create, h]
  · intro h
    have h0 : ¬ (trimString s).length = 0 := by omega
    have h1 : ¬ (trimString s).length < TodoTitle.MIN_LENGTH := by
      simp only [TodoTitle.MIN_LENGTH]; omega
    have h2 : (trimString s).length > TodoTitle.MAX_LENGTH := by
      simp only [TodoTitle.MAX_LENGTH]; omega
    simp [TodoTitle.create, h0, h1, h2]

/-- Witness for C2 at concrete inputs: a padded title is trimmed and
accepted, a title of trimmed length exactly 100 is accepted, one of length
101 is rejected as too long, and a whitespace-only title is rejected as
empty. -/
theorem C2_todo_title_create_witness :
    ((1 ≤ (trimString "  장보기  ").length ∧ (trimString "  장보기  ").length ≤ 100) ∧
      TodoTitle.create (some "  장보기  ") = .ok (trimString "  장보기  ") ∧
      (trimString "  장보기  ") = "장보기") ∧
    ((trimString (String.mk (List.replicate 100 'a'))).length = 100 ∧
      TodoTitle.create (some (String.mk (List.replicate 100 'a'))) =
        .ok (trimString (String.mk (List.replicate 100 'a')))) ∧
    ((trimString (String.mk (List.replicate 101 'a'))).length = 101 ∧
      TodoTitle.create (some (String.mk (List.replicate 101 'a'))) =
        .error (InvalidTodoTitleError.tooLong
          (trimString (String.mk (List.replicate 101 'a'))) TodoTitle.MAX_LENGTH)) ∧
    ((trimString "   ").length = 0 ∧
      TodoTitle.create (some "   ") = .error InvalidTodoTitleError.empty) :=
  ⟨⟨by decide, (C2_todo_title_create "  장보기  ").1 (by decide), by decide⟩,
   ⟨by decide, (C2_todo_title_create (String.mk (List.replicate 100 'a'))).1 (by decide)⟩,
   ⟨by decide, (C2_todo_title_create (String.mk (List.replicate 101 'a'))).2.2.1 (by decide)⟩,
   ⟨by decide, (C2_todo_title_create "   ").2.1 (by decide)⟩⟩

/-- A failing title step leaves the entity untouched. -/
theorem Todo.updateTitleStep_err_frame (t : Todo) (o : Option String) (now : Nat)
    (e : TodoError) (h : (t.updateTitleStep o now).2 = some e) :
    (t.updateTitleStep o now).1 = t := by
  cases o with
  | none => simp [Todo.updateTitleStep] at h
  | some ti =>
    simp only [Todo.updateTitleStep] at h ⊢
    exact Todo.updateTitle_err_frame t ti now e h

/-- A failing status step leaves the entity untouched. -/
theorem Todo.changeStatusStep_err_frame (t : Todo) (o : Option TodoStatusType)
    (now : Nat) (e : TodoError) (h : (t.changeStatusStep o now).2 = some e) :
    (t.changeStatusStep o now).1 = t := by
  cases o with
  | none => simp [Todo.changeStatusStep] at h
  | some s =>
    simp only [Todo.changeStatusStep] at h ⊢
    exact Todo.changeStatus_err_frame t s now e h

/-- Sample persisted entities used by the concrete witnesses. -/
def sampleTodo : Todo :=
  { id := some 1, title := "장보기", description := some "우유 사기",
    status := .PENDING, createdAt := 0, updatedAt := 0 }

/-- A sample COMPLETED entity used by the concrete witnesses. -/
def sampleCompletedTodo : Todo :=
  { id := some 2, title := "정리", description := none,
    status := .COMPLETED, createdAt := 0, updatedAt := 0 }

/-- C3: `Todo.update` applies the provided fields strictly in the order
title, description, status, delegating to `updateTitle`,
`updateDescription`, `changeStatus`; when the title step fails no later
field is applied and every field keeps its pre-call value, and after a
successful title step the result is the description step followed by the
status step — so on a status-step failure the already-applied
title/description mutations remain in the returned entity. -/
theorem C3_update_sequencing (t : Todo) (p : UpdateParams) (now : Nat) :
    (∀ e, (t.updateTitleStep p.title now).2 = some e →
      Todo.update t p now = (t, some e)) ∧
    (∀ t1, t.updateTitleStep p.title now = (t1, none) →
      Todo.update t p now =
        (t1.updateDescriptionStep p.description now).changeStatusStep
          p.status now ∧
      ∀ e, ((t1.updateDescriptionStep p.description now).changeStatusStep
          p.status now).2 = some e →
        Todo.update t p now =
          (t1.updateDescriptionStep p.description now, some e)) := by
  constructor
  · intro e h
    have hf := Todo.updateTitleStep_err_frame t p.title now e h
    rcases hstep : t.updateTitleStep p.title now with ⟨t1, oe⟩
    rw [hstep] at h hf
    simp only at h hf
    subst h
    subst hf
    simp [Todo.update, hstep]
  · intro t1 h1
    have hdef : Todo.update t p now =
        (t1.updateDescriptionStep p.description now).changeStatusStep
          p.status now := by
      simp [Todo.update, h1]
    refine ⟨hdef, ?_⟩
    intro e h2
    have hf := Todo.changeStatusStep_err_frame
      (t1.updateDescriptionStep p.description now) p.status now e h2
    rw [hdef]
    rcases hcs : (t1.updateDescriptionStep p.description now).changeStatusStep
        p.status now with ⟨t2, oe⟩
    rw [hcs] at h2 hf
    simp only at h2 hf
    subst h2
    subst hf
    rfl

/-- Witness for C3: an invalid title aborts the whole update (the provided
description and status are not applied), while a valid title and
description followed by a disallowed status transition leave the title and
description mutated in the returned entity. -/
theorem C3_update_sequencing_witness :
    Todo.update sampleTodo
        { title := some " ", description := some (some "새 설명"),
          status := some .IN_PROGRESS } 5 =
      (sampleTodo, some InvalidTodoTitleError.empty) ∧
    Todo.update sampleCompletedTodo
        { title := some "새 제목", description := some (some "새 설명"),
          status := some .IN_PROGRESS } 5 =
      ({ sampleCompletedTodo with
          title := "새 제목",
          description := some "새 설명",
          updatedAt := 5 },
        some (.invalidStatusTransition .COMPLETED .IN_PROGRESS)) := by
  constructor
  · exact (C3_update_sequencing sampleTodo
      { title := some " ", description := some (some "새 설명"),
        status := some .IN_PROGRESS } 5).1 InvalidTodoTitleError.empty (by decide)
  · have h := ((C3_update_sequencing sampleCompletedTodo
      { title := some "새 제목", description := some (some "새 설명"),
        status := some .IN_PROGRESS } 5).2
        ({ sampleCompletedTodo with title := "새 제목", updatedAt := 5 })
        (by decide)).2
        (.invalidStatusTransition .COMPLETED .IN_PROGRESS) (by decide)
    exact h.trans (by decide)

/-- C4: when `UpdateTodoUseCase.execute` finds the entity but the
entity-level `Todo.update` fails (invalid title or disallowed transition),
the error propagates to the caller and no repository write (`save`,
`update` or `delete`) appears in the trace of the operation. -/
theorem C4_update_use_case_no_write_on_validation_failure
    (findById : Int → Option Todo) (command : UpdateTodoCommand) (now : Nat)
    (todo : Todo) (e : TodoError)
    (hfind : findById command.id = some todo)
    (hfail : (todo.update
      { title := command.title, description := command.description,
        status := command.status } now).2 = some e) :
    (UpdateTodoUseCase.execute findById command now).2 = .error e ∧
    ∀ op ∈ (UpdateTodoUseCase.execute findById command now).1,
      op.isWrite = false := by
  rcases hupd : todo.update
      { title := command.title, description := command.description,
        status := command.status } now with ⟨t1, oe⟩
  rw [hupd] at hfail
  simp only at hfail
  subst hfail
  constructor
  · simp [UpdateTodoUseCase.execute, hfind, hupd]
  · intro op hop
    simp [UpdateTodoUseCase.execute, hfind, hupd] at hop
    subst hop
    rfl

/-- The concrete in-memory repository read model used by the witnesses:
id 1 holds `sampleTodo`, id 2 holds `sampleCompletedTodo`, everything else
is absent. -/
def sampleFindById : Int → Option Todo := fun id =>
  if id = 1 then some sampleTodo
  else if id = 2 then some sampleCompletedTodo
  else none

/-- Witness for C4: updating the existing entity 1 with an empty title
fails with the InvalidTitle error and the trace contains only the read. -/
theorem C4_update_use_case_no_write_on_validation_failure_witness :
    (UpdateTodoUseCase.execute sampleFindById
      { id := 1, title := some "", description := none, status := none } 5).2 =
      .error InvalidTodoTitleError.empty ∧
    ∀ op ∈ (UpdateTodoUseCase.execute sampleFindById
      { id := 1, title := some "", description := none, status := none } 5).1,
      op.isWrite = false :=
  C4_update_use_case_no_write_on_validation_failure sampleFindById
    { id := 1, title := some "", description := none, status := none } 5
    sampleTodo InvalidTodoTitleError.empty (by decide) (by decide)

/-- Errors thrown by `updateTitle` are InvalidTitle errors. -/
theorem Todo.updateTitle_err_shape (t : Todo) (ti : String) (now : Nat)
    (e : TodoError) (h : (t.updateTitle ti now).2 = some e) :
    ∃ a r, e = .invalidTodoTitle a r := by
  simp only [Todo.updateTitle] at h
  rcases hc : TodoTitle.create (some ti) with v | v
  · rw [hc] at h
    simp at h
    obtain ⟨a, r, hv⟩ := TodoTitle.create_error_shape (some ti) v hc
    subst h
    exact ⟨a, r, hv⟩
  · rw [hc] at h
    split at h
    · simp_all
    · split at h <;> simp at h

/-- Errors thrown by `changeStatus` are exactly the transition error for the
current and target statuses. -/
theorem Todo.changeStatus_err_shape (t : Todo) (s : TodoStatusType) (now : Nat)
    (e : TodoError) (h : (t.changeStatus s now).2 = some e) :
    e = .invalidStatusTransition t.status s := by
  by_cases hs : t.status = s
  · simp [Todo.changeStatus, hs] at h
  · rcases hc : TodoStatus.transitionTo t.status s with v | v
    · have hv : v = .invalidStatusTransition t.status s := by
        simp only [TodoStatus.transitionTo] at hc
        split at hc <;> simp_all
      simp [Todo.changeStatus, hs, hc] at h
      rw [← h, hv]
    · simp [Todo.changeStatus, hs, hc] at h

/-- An entity-level `Todo.update` never throws `TodoNotFoundError`. -/
theorem Todo.update_err_not_notFound (t : Todo) (p : UpdateParams) (now : Nat)
    (e : TodoError) (h : (Todo.update t p now).2 = some e) :
    ∀ i : Int, e ≠ .todoNotFound i := by
  intro i hni
  subst hni
  rcases hstep : t.updateTitleStep p.title now with ⟨t1, oe⟩
  cases oe with
  | some e' =>
    have hupdate : Todo.update t p now = (t1, some e') := by
      simp [Todo.update, hstep]
    rw [hupdate] at h
    simp at h
    subst h
    cases hpt : p.title with
    | none => rw [hpt] at hstep; simp [Todo.updateTitleStep] at hstep
    | some ti =>
      rw [hpt] at hstep
      simp only [Todo.updateTitleStep] at hstep
      have hsnd : (t.updateTitle ti now).2 = some (.todoNotFound i) := by
        rw [hstep]
      obtain ⟨a, r, hv⟩ := Todo.updateTitle_err_shape t ti now _ hsnd
      simp at hv
  | none =>
    have hupdate : Todo.update t p now =
        (t1.updateDescriptionStep p.description now).changeStatusStep
          p.status now := by
      simp [Todo.update, hstep]
    rw [hupdate] at h
    cases hps : p.status with
    | none => rw [hps] at h; simp [Todo.changeStatusStep] at h
    | some s =>
      rw [hps] at h
      simp only [Todo.changeStatusStep] at h
      have := Todo.changeStatus_err_shape _ s now _ h
      simp at this

/-- `toggleComplete` never throws: both branches perform an allowed
transition (or a no-op). -/
theorem Todo.toggleComplete_no_err (t : Todo) (now : Nat) :
    (t.toggleComplete now).2 = none := by
  obtain ⟨i, ti, d, st, c, u⟩ := t
  cases st <;> rfl

/-- C5: each of GetTodoById, UpdateTodo, DeleteTodo and ToggleTodo fails with
`TodoNotFound(id)` exactly when `findById id` is absent — and then the trace
holds only the read, no write — while when the entity exists GetTodoById
returns it unchanged, UpdateTodo never fails with `TodoNotFound(id)`,
DeleteTodo succeeds, and ToggleTodo returns the toggled entity. -/
theorem C5_not_found_exactly_when_absent (findById : Int → Option Todo)
    (id : Int) (ti : Option String) (d : Option (Option String))
    (st : Option TodoStatusType) (now : Nat) :
    (findById id = none →
      GetTodoByIdUseCase.execute findById id =
        ([.findById id], .error (.todoNotFound id)) ∧
      UpdateTodoUseCase.execute findById
        { id := id, title := ti, description := d, status := st } now =
        ([.findById id], .error (.todoNotFound id)) ∧
      DeleteTodoUseCase.execute findById id =
        ([.findById id], .error (.todoNotFound id)) ∧
      ToggleTodoUseCase.execute findById id now =
        ([.findById id], .error (.todoNotFound id)) ∧
      (RepoOp.findById id).isWrite = false) ∧
    (∀ todo, findById id = some todo →
      GetTodoByIdUseCase.execute findById id = ([.findById id], .ok todo) ∧
      (∀ e, (UpdateTodoUseCase.execute findById
          { id := id, title := ti, description := d, status := st } now).2 =
          .error e → e ≠ .todoNotFound id) ∧
      (DeleteTodoUseCase.execute findById id).2 = .ok () ∧
      (ToggleTodoUseCase.execute findById id now).2 =
        .ok (todo.toggleComplete now).1) := by
  constructor
  · intro h
    refine ⟨?_, ?_, ?_, ?_, rfl⟩ <;>
      simp [GetTodoByIdUseCase.execute, UpdateTodoUseCase.execute,
        DeleteTodoUseCase.execute, ToggleTodoUseCase.execute, h]
  · intro todo h
    refine ⟨?_, ?_, ?_, ?_⟩
    · simp [GetTodoByIdUseCase.execute, h]
    · intro e he
      rcases hupd : todo.update { title := ti, description := d, status := st }
          now with ⟨t1, oe⟩
      cases oe with
      | some e' =>
        have hex : (UpdateTodoUseCase.execute findById
            { id := id, title := ti, description := d, status := st } now).2 =
            .error e' := by
          simp [UpdateTodoUseCase.execute, h, hupd]
        rw [hex] at he
        simp at he
        subst he
        exact Todo.update_err_not_notFound todo _ now e' (by rw [hupd]) id
      | none =>
        have hex : (UpdateTodoUseCase.execute findById
            { id := id, title := ti, description := d, status := st } now).2 =
            .ok t1 := by
          simp [UpdateTodoUseCase.execute, h, hupd]
        rw [hex] at he
        simp at he
    · simp [DeleteTodoUseCase.execute, h]
    · rcases htog : todo.toggleComplete now with ⟨t1, oe⟩
      have hoe := Todo.toggleComplete_no_err todo now
      rw [htog] at hoe
      simp only at hoe
      subst hoe
      simp [ToggleTodoUseCase.execute, h, htog]

/-- Witness for C5: with the sample repository, id 42 is absent so every use
case fails with `TodoNotFound(42)`, while id 1 is present so GetTodoById
returns the entity, DeleteTodo succeeds and ToggleTodo returns the toggled
entity. -/
theorem C5_not_found_exactly_when_absent_witness :
    GetTodoByIdUseCase.execute sampleFindById 42 =
      ([.findById 42], .error (.todoNotFound 42)) ∧
    DeleteTodoUseCase.execute sampleFindById 42 =
      ([.findById 42], .error (.todoNotFound 42)) ∧
    GetTodoByIdUseCase.execute sampleFindById 1 =
      ([.findById 1], .ok sampleTodo) ∧
    (DeleteTodoUseCase.execute sampleFindById 1).2 = .ok () ∧
    (ToggleTodoUseCase.execute sampleFindById 1 5).2 =
      .ok (sampleTodo.toggleComplete 5).1 :=
  ⟨((C5_not_found_exactly_when_absent sampleFindById 42 none none none 5).1
      (by decide)).1,
   ((C5_not_found_exactly_when_absent sampleFindById 42 none none none 5).1
      (by decide)).2.2.1,
   (((C5_not_found_exactly_when_absent sampleFindById 1 none none none 5).2
      sampleTodo (by decide))).1,
   (((C5_not_found_exactly_when_absent sampleFindById 1 none none none 5).2
      sampleTodo (by decide))).2.2.1,
   (((C5_not_found_exactly_when_absent sampleFindById 1 none none none 5).2
      sampleTodo (by decide))).2.2.2⟩

/-- C6: `toggleComplete` never throws, maps COMPLETED to PENDING and any
other status to COMPLETED; starting from PENDING one toggle yields COMPLETED
and a second yields PENDING again. -/
theorem C6_toggle_involution (t : Todo) (now now2 : Nat) :
    (t.toggleComplete now).2 = none ∧
    (t.toggleComplete now).1.status =
      (if t.status = .COMPLETED then .PENDING else .COMPLETED) ∧
    (t.status = .PENDING →
      (t.toggleComplete now).1.status = .COMPLETED ∧
      ((t.toggleComplete now).1.toggleComplete now2).1.status = .PENDING) := by
  obtain ⟨i, ti, d, st, c, u⟩ := t
  cases st
  · exact ⟨rfl, rfl, fun _ => ⟨rfl, rfl⟩⟩
  · exact ⟨rfl, rfl, fun h => nomatch h⟩
  · exact ⟨rfl, rfl, fun h => nomatch h⟩

/-- Witness for C6: toggling the PENDING sample entity yields COMPLETED, and
toggling again yields PENDING. -/
theorem C6_toggle_involution_witness :
    (sampleTodo.toggleComplete 5).2 = none ∧
    (sampleTodo.toggleComplete 5).1.status = .COMPLETED ∧
    ((sampleTodo.toggleComplete 5).1.toggleComplete 6).1.status = .PENDING :=
  ⟨(C6_toggle_involution sampleTodo 5 6).1,
   ((C6_toggle_involution sampleTodo 5 6).2.2 (by decide)).1,
   ((C6_toggle_involution sampleTodo 5 6).2.2 (by decide)).2⟩

/-- A successful title step reduces `update` to the description step followed
by the status step. -/
theorem Todo.update_decomp_ok (t t1 : Todo) (p : UpdateParams) (now : Nat)
    (h : t.updateTitleStep p.title now = (t1, none)) :
    Todo.update t p now =
      (t1.updateDescriptionStep p.description now).changeStatusStep
        p.status now := by
  simp [Todo.update, h]

/-- A failing title step short-circuits `update`. -/
theorem Todo.update_decomp_err (t t1 : Todo) (p : UpdateParams) (now : Nat)
    (e : TodoError) (h : t.updateTitleStep p.title now = (t1, some e)) :
    Todo.update t p now = (t1, some e) := by
  simp [Todo.update, h]

/-- The title step never touches description or status. -/
theorem Todo.updateTitleStep_frame (t : Todo) (o : Option String) (now : Nat) :
    (t.updateTitleStep o now).1.description = t.description ∧
    (t.updateTitleStep o now).1.status = t.status := by
  cases o with
  | none => simp [Todo.updateTitleStep]
  | some ti =>
    simp only [Todo.updateTitleStep]
    exact ⟨(Todo.updateTitle_frame t ti now).1, (Todo.updateTitle_frame t ti now).2.1⟩

/-- The description step never touches title or status. -/
theorem Todo.updateDescriptionStep_frame (t : Todo) (o : Option (Option String))
    (now : Nat) :
    (t.updateDescriptionStep o now).title = t.title ∧
    (t.updateDescriptionStep o now).status = t.status := by
  cases o with
  | none => simp [Todo.updateDescriptionStep]
  | some d =>
    simp only [Todo.updateDescriptionStep]
    exact ⟨(Todo.updateDescription_frame t d now).1,
      (Todo.updateDescription_frame t d now).2.1⟩

/-- The status step never touches title or description. -/
theorem Todo.changeStatusStep_frame (t : Todo) (o : Option TodoStatusType)
    (now : Nat) :
    (t.changeStatusStep o now).1.title = t.title ∧
    (t.changeStatusStep o now).1.description = t.description := by
  cases o with
  | none => simp [Todo.changeStatusStep]
  | some s =>
    simp only [Todo.changeStatusStep]
    exact ⟨(Todo.changeStatus_frame t s now).1, (Todo.changeStatus_frame t s now).2.1⟩

/-- When the sanitized description is null, `updateDescription` stores null. -/
theorem Todo.updateDescription_clears (t : Todo) (now : Nat) (d : Option String)
    (h : sanitizeDescription d = none) :
    (t.updateDescription d now).description = none := by
  simp only [Todo.updateDescription, h]
  split <;> simp_all

/-- C7: `Todo.update` mutates only the fields explicitly provided — an
absent/undefined field keeps its prior value — and a description given as an
explicit null, or as a string that is empty after trimming, is cleared to
null. -/
theorem C7_update_only_provided_fields (t : Todo) (p : UpdateParams) (now : Nat) :
    (p.title = none → (Todo.update t p now).1.title = t.title) ∧
    (p.description = none →
      (Todo.update t p now).1.description = t.description) ∧
    (p.status = none → (Todo.update t p now).1.status = t.status) ∧
    ((t.updateTitleStep p.title now).2 = none → p.description = some none →
      (Todo.update t p now).1.description = none) ∧
    ((t.updateDescription none now).description = none) ∧
    (∀ s, trimString s = "" →
      (t.updateDescription (some s) now).description = none) := by
  refine ⟨?_, ?_, ?_, ?_, ?_, ?_⟩
  · intro ht
    have hstep : t.updateTitleStep p.title now = (t, none) := by
      rw [ht]; rfl
    rw [Todo.update_decomp_ok t t p now hstep,
      (Todo.changeStatusStep_frame _ p.status now).1]
    exact (Todo.updateDescriptionStep_frame t p.description now).1
  · intro hd
    rcases hstep : t.updateTitleStep p.title now with ⟨t1, oe⟩
    have hpres := (Todo.updateTitleStep_frame t p.title now).1
    rw [hstep] at hpres
    cases oe with
    | none =>
      rw [Todo.update_decomp_ok t t1 p now hstep,
        (Todo.changeStatusStep_frame _ p.status now).2]
      have hskip : t1.updateDescriptionStep p.description now = t1 := by
        rw [hd]; rfl
      rw [hskip]
      exact hpres
    | some e =>
      rw [Todo.update_decomp_err t t1 p now e hstep]
      exact hpres
  · intro hs
    rcases hstep : t.updateTitleStep p.title now with ⟨t1, oe⟩
    have hpres := (Todo.updateTitleStep_frame t p.title now).2
    rw [hstep] at hpres
    cases oe with
    | none =>
      rw [Todo.update_decomp_ok t t1 p now hstep]
      have hskip : (t1.updateDescriptionStep p.description now).changeStatusStep
          p.status now = (t1.updateDescriptionStep p.description now, none) := by
        rw [hs]; rfl
      rw [hskip]
      rw [(Todo.updateDescriptionStep_frame t1 p.description now).2]
      exact hpres
    | some e =>
      rw [Todo.update_decomp_err t t1 p now e hstep]
      exact hpres
  · intro hok hd
    rcases hstep : t.updateTitleStep p.title now with ⟨t1, oe⟩
    rw [hstep] at hok
    simp only at hok
    subst hok
    rw [Todo.update_decomp_ok t t1 p now hstep,
      (Todo.changeStatusStep_frame _ p.status now).2, hd]
    exact Todo.updateDescription_clears t1 now none rfl
  · exact Todo.updateDescription_clears t now none rfl
  · intro s hs
    exact Todo.updateDescription_clears t now (some s)
      (by simp [sanitizeDescription, hs])

/-- Witness for C7: updating the sample entity with only an explicit-null
description keeps the title and clears the description; a whitespace-only or
null description update clears the stored description. -/
theorem C7_update_only_provided_fields_witness :
    (Todo.update sampleTodo
      { title := none, description := some none, status := none } 5).1.title =
      sampleTodo.title ∧
    (Todo.update sampleTodo
      { title := none, description := some none, status := none } 5).1.description =
      none ∧
    (sampleTodo.updateDescription (some "   ") 5).description = none ∧
    (sampleTodo.updateDescription none 5).description = none :=
  ⟨(C7_update_only_provided_fields sampleTodo
      { title := none, description := some none, status := none } 5).1 rfl,
   (C7_update_only_provided_fields sampleTodo
      { title := none, description := some none, status := none } 5).2.2.2.1
      (by decide) rfl,
   (C7_update_only_provided_fields sampleTodo
      { title := none, description := some none, status := none } 5).2.2.2.2.2
      "   " (by decide),
   (C7_update_only_provided_fields sampleTodo
      { title := none, description := some none, status := none } 5).2.2.2.2.1⟩

/-- C8: the idempotent no-ops — `complete()` on an already-COMPLETED entity,
`changeStatus` to the current status, and `updateTitle` whose validated
(trimmed) value equals the current title — return the entity with every
field (including `updatedAt`) unchanged, while `updateTitle` with a
different valid title replaces the title and stamps `updatedAt`. -/
theorem C8_idempotent_noops (t : Todo) (ti : String) (v : String) (now : Nat) :
    (t.status = .COMPLETED → t.complete now = (t, none)) ∧
    (t.changeStatus t.status now = (t, none)) ∧
    (TodoTitle.create (some ti) = .ok t.title → t.updateTitle ti now = (t, none)) ∧
    (TodoTitle.create (some ti) = .ok v → v ≠ t.title →
      t.updateTitle ti now = ({ t with title := v, updatedAt := now }, none)) := by
  refine ⟨?_, ?_, ?_, ?_⟩
  · intro h
    simp [Todo.complete, TodoStatus.isCompleted, h]
  · simp [Todo.changeStatus]
  · intro h
    simp [Todo.updateTitle, h]
  · intro h hne
    simp [Todo.updateTitle, h, Ne.symm hne]

/-- Witness for C8: the COMPLETED sample entity is unchanged by `complete`,
the PENDING sample entity is unchanged by a same-status `changeStatus` and a
same-title (up to trimming) `updateTitle`, while a new valid title replaces
the title and stamps `updatedAt`. -/
theorem C8_idempotent_noops_witness :
    sampleCompletedTodo.complete 5 = (sampleCompletedTodo, none) ∧
    sampleTodo.changeStatus sampleTodo.status 5 = (sampleTodo, none) ∧
    sampleTodo.updateTitle "  장보기  " 5 = (sampleTodo, none) ∧
    sampleTodo.updateTitle "할일" 5 =
      ({ sampleTodo with title := "할일", updatedAt := 5 }, none) :=
  ⟨(C8_idempotent_noops sampleCompletedTodo "x" "x" 5).1 rfl,
   (C8_idempotent_noops sampleTodo "x" "x" 5).2.1,
   (C8_idempotent_noops sampleTodo "  장보기  " "장보기" 5).2.2.1 (by decide),
   (C8_idempotent_noops sampleTodo "할일" "할일" 5).2.2.2 (by decide) (by decide)⟩

/-- C9 counterexample: `Todo.create` with the empty-string description stores
the empty string itself (`description ?? null` keeps a non-nullish `''`), so
the created entity's description is `some ""` — not absent (`none`) as the
claim states. -/
theorem C9_create_empty_description_counterexample :
    Todo.create "장보기" (some "") 0 =
      .ok { id := none, title := "장보기", description := some "",
            status := .PENDING, createdAt := 0, updatedAt := 0 } ∧
    (some "" : Option String) ≠ none := by
  exact ⟨by decide, by decide⟩

/-- C9 (amended): for every valid title, `Todo.create` with an empty-string
description keeps the empty string as the stored description (it is not
normalized to absent at construction; only `updateDescription` collapses an
empty string to null). -/
theorem C9_create_empty_description_amended (title v : String) (now : Nat)
    (h : TodoTitle.create (some title) = .ok v) :
    Todo.create title (some "") now =
      .ok { id := none, title := v, description := some "",
            status := .PENDING, createdAt := now, updatedAt := now } := by
  simp [Todo.create, h, TodoStatus.defaultStatus]

/-- Witness for the amended C9 at a concrete valid title. -/
theorem C9_create_empty_description_amended_witness :
    Todo.create "장보기" (some "") 7 =
      .ok { id := none, title := "장보기", description := some "",
            status := .PENDING, createdAt := 7, updatedAt := 7 } :=
  C9_create_empty_description_amended "장보기" "장보기" 7 (by decide)

/-- C10 counterexample: `TodoStatus.fromString` on the non-literal
`"UNKNOWN"` throws a plain generic `Error` whose machine-readable code is
absent — contradicting the claim that the parse failure carries a stable
machine-readable kind/code. -/
theorem C10_from_string_counterexample :
    TodoStatus.fromString "UNKNOWN" =
      .error (.genericError (TodoStatus.fromStringErrorMessage "UNKNOWN")) ∧
    TodoError.code
      (.genericError (TodoStatus.fromStringErrorMessage "UNKNOWN")) = none := by
  exact ⟨by decide, rfl⟩

/-- C10 (amended): for every string that is not one of the three defined
literals, `fromString` fails — but with a plain generic error that carries
only a human-readable message and no machine-readable kind/code (it is not a
`DomainError`). -/
theorem C10_from_string_amended (v : String)
    (h1 : v ≠ "PENDING") (h2 : v ≠ "IN_PROGRESS") (h3 : v ≠ "COMPLETED") :
    TodoStatus.fromString v =
      .error (.genericError (TodoStatus.fromStringErrorMessage v)) ∧
    ∀ e, TodoStatus.fromString v = .error e → TodoError.code e = none := by
  have hv : TodoStatus.fromString v =
      .error (.genericError (TodoStatus.fromStringErrorMessage v)) := by
    simp [TodoStatus.fromString, h1, h2, h3]
  refine ⟨hv, ?_⟩
  intro e he
  rw [hv] at he
  simp at he
  subst he
  rfl

/-- Witness for the amended C10 at a concrete non-literal string. -/
theorem C10_from_string_amended_witness :
    TodoStatus.fromString "DONE" =
      .error (.genericError (TodoStatus.fromStringErrorMessage "DONE")) ∧
    TodoError.code
      (.genericError (TodoStatus.fromStringErrorMessage "DONE")) = none :=
  ⟨(C10_from_string_amended "DONE" (by decide) (by decide) (by decide)).1,
   (C10_from_string_amended "DONE" (by decide) (by decide) (by decide)).2
     (.genericError (TodoStatus.fromStringErrorMessage "DONE"))
     (C10_from_string_amended "DONE" (by decide) (by decide) (by decide)).1⟩
